import Mathlib

/-
Verification development for the two tutorial notebooks of this repository,
`docs/tutorials/cta_sensitivity.ipynb` and `docs/tutorials/detect.ipynb`.

The notebooks are straight-line Python scripts that sequence calls into the
gammapy / astropy / numpy / matplotlib libraries.  We embed them in two
complementary ways:

1. A deep embedding of the notebook statements as an abstract syntax tree
   (a small Python fragment: assignments, attribute / augmented assignments,
   expression statements, imports, IPython magics, comments, and - so that
   their absence is expressible - loops, conditionals, try/except and
   function definitions).  Every code cell of both notebooks is transcribed
   statement by statement into `ctaStmts` and `detectStmts`.  An oracle-based
   small interpreter gives the fragment a semantics in which every operation
   on library objects (calls, attribute access, operators, indexing,
   imports) is a query to an external-library oracle.

2. A shallow real-valued model of the two cells about which the claims make
   numeric statements: the containment-correction cell of
   `cta_sensitivity.ipynb` and the `mask_safe` construction of
   `detect.ipynb`.
-/

set_option maxHeartbeats 2000000
set_option maxRecDepth 8000

namespace NbModel

/-- A Python literal as it appears in the notebook source: a numeric literal
(kept as its source text), a string literal, or a boolean. -/
inductive Lit where
  | num (s : String)
  | str (s : String)
  | bool (b : Bool)
deriving DecidableEq

mutual
/-- Expressions of the Python fragment used by the notebooks. -/
inductive Expr where
  | name (x : String)
  | lit (l : Lit)
  | attr (e : Expr) (f : String)
  | call (fn : Expr) (args : Args)
  | binop (op : String) (a : Expr) (b : Expr)
  | index (a : Expr) (i : Expr)
  | listE (elts : Args)
  | tupleE (elts : Args)
  | fstr (parts : Args)

/-- Argument lists: positional and keyword arguments, in source order.
Also used for list / tuple displays and f-string parts (all positional). -/
inductive Args where
  | nil
  | pos (e : Expr) (rest : Args)
  | kw (key : String) (e : Expr) (rest : Args)
end

/-- Assignment targets occurring in the notebooks. -/
inductive Target where
  | var (x : String)
  | attrT (base : Expr) (f : String)
  | tupleT (xs : List String)

/-- Statements of the Python fragment.  The compound statements
(`forS`, `whileS`, `ifS`, `tryS`, `defS`) are part of the language so that
their absence from the notebooks is a statement about the programs, not an
artifact of the embedding. -/
inductive Stmt where
  | assign (t : Target) (e : Expr)
  | augAttr (base : Expr) (f : String) (op : String) (e : Expr)
  | exprStmt (e : Expr)
  | importM (m : String) (asName : String)
  | importF (m : String) (names : List String)
  | magic (s : String)
  | comment (s : String)
  | forS (v : String) (iter : Expr) (body : List Stmt)
  | whileS (c : Expr) (body : List Stmt)
  | ifS (c : Expr) (thn : List Stmt) (els : List Stmt)
  | tryS (body : List Stmt) (handler : List Stmt)
  | defS (nm : String) (params : List String) (body : List Stmt)

/-- Build an argument list from a Lean list of (keyword?, expression). -/
def A : List (Option String × Expr) → Args
  | [] => .nil
  | (none, e) :: rest => .pos e (A rest)
  | (some key, e) :: rest => .kw key e (A rest)

/-- Positional argument. -/
def pa (e : Expr) : Option String × Expr := (none, e)

/-- Keyword argument. -/
def ka (s : String) (e : Expr) : Option String × Expr := (some s, e)

/-- Variable reference. -/
def V (x : String) : Expr := .name x

/-- String literal. -/
def S (s : String) : Expr := .lit (.str s)

/-- Numeric literal (kept as source text). -/
def N (s : String) : Expr := .lit (.num s)

/-- Boolean literal. -/
def Bl (b : Bool) : Expr := .lit (.bool b)

/-- Call expression. -/
def C (fn : Expr) (args : List (Option String × Expr)) : Expr := .call fn (A args)

/-! ## The `cta_sensitivity.ipynb` notebook, cell by cell -/

/-- Cell "Define analysis region":
`region = CircleSkyRegion(center=center, radius=0.1 * u.deg)`. -/
def sRegion : Stmt :=
  .assign (.var ("region"))
    (C (V ("CircleSkyRegion"))
      [ka ("center") (V ("center")),
       ka ("radius") (.binop ("*") (N ("0.1")) (.attr (V ("u")) ("deg")))])

/-- Containment-correction cell: `dataset.aeff.data.data *= containment`. -/
def sAeffCorr : Stmt :=
  .augAttr (.attr (.attr (V ("dataset")) ("aeff")) ("data")) ("data") ("*")
    (V ("containment"))

/-- Containment-correction cell:
`on_radii = obs.psf.containment_radius(energy=e_reco.center, theta=0.5 * u.deg, fraction=containment)[0]`. -/
def sOnRadii : Stmt :=
  .assign (.var ("on_radii"))
    (.index
      (C (.attr (.attr (V ("obs")) ("psf")) ("containment_radius"))
        [ka ("energy") (.attr (V ("e_reco")) ("center")),
         ka ("theta") (.binop ("*") (N ("0.5")) (.attr (V ("u")) ("deg"))),
         ka ("fraction") (V ("containment"))])
      (N ("0")))

/-- Containment-correction cell:
`factor = (1 - np.cos(on_radii)) / (1 - np.cos(region.radius))`. -/
def sFactor : Stmt :=
  .assign (.var ("factor"))
    (.binop ("/")
      (.binop ("-") (N ("1")) (C (.attr (V ("np")) ("cos")) [pa (V ("on_radii"))]))
      (.binop ("-") (N ("1"))
        (C (.attr (V ("np")) ("cos")) [pa (.attr (V ("region")) ("radius"))])))

/-- Containment-correction cell:
`dataset.background.data *= factor.value.reshape((-1, 1, 1))`. -/
def sBkgCorr : Stmt :=
  .augAttr (.attr (V ("dataset")) ("background")) ("data") ("*")
    (C (.attr (.attr (V ("factor")) ("value")) ("reshape"))
      [pa (.tupleE (A [pa (N ("-1")), pa (N ("1")), pa (N ("1"))]))])

/-- The text of the commented-out serialization line of the "Results"
section of `cta_sensitivity.ipynb`. -/
def writeCommentText : String :=
  "sensitivity_table.write(\x27sensitivity.ecsv\x27, format=\x27ascii.ecsv\x27)"

/-- The commented-out serialization line of the "Results" section. -/
def sWriteComment : Stmt := .comment writeCommentText

/-- The program contains the serialization call only as a comment. -/
def hasCommentedWrite (p : List Stmt) : Bool :=
  p.any (fun s =>
    match s with
    | .comment c => c == writeCommentText
    | _ => false)

/-- All code-cell statements of `cta_sensitivity.ipynb`, in execution order. -/
def ctaStmts : List Stmt :=
  [ -- cell: setup
    .magic ("%matplotlib inline"),
    .importM ("matplotlib.pyplot") ("plt"),
    .importM ("numpy") ("np"),
    -- cell: imports
    .importM ("astropy.units") ("u"),
    .importF ("astropy.coordinates") [("Angle"), ("SkyCoord")],
    .importF ("regions") [("CircleSkyRegion")],
    .importF ("gammapy.irf") [("load_cta_irfs")],
    .importF ("gammapy.makers") [("SpectrumDatasetMaker")],
    .importF ("gammapy.data") [("Observation")],
    .importF ("gammapy.estimators") [("SensitivityEstimator")],
    .importF ("gammapy.datasets") [("SpectrumDataset"), ("SpectrumDatasetOnOff")],
    .importF ("gammapy.maps") [("MapAxis")],
    -- cell: define analysis region and energy binning
    .assign (.var ("center"))
      (C (V ("SkyCoord")) [pa (S ("0 deg")), pa (S ("0.5 deg"))]),
    sRegion,
    .assign (.var ("e_reco"))
      (C (.attr (V ("MapAxis")) ("from_energy_bounds"))
        [pa (S ("0.03 TeV")), pa (S ("30 TeV")), ka ("nbin") (N ("20"))]),
    .assign (.var ("e_true"))
      (C (.attr (V ("MapAxis")) ("from_energy_bounds"))
        [pa (S ("0.01 TeV")), pa (S ("100 TeV")), ka ("nbin") (N ("100"))]),
    .assign (.var ("empty_dataset"))
      (C (.attr (V ("SpectrumDataset")) ("create"))
        [ka ("e_reco") (V ("e_reco")), ka ("e_true") (V ("e_true")),
         ka ("region") (V ("region"))]),
    -- cell: load IRFs and build the observation
    .assign (.var ("irfs"))
      (C (V ("load_cta_irfs"))
        [pa (S ("$GAMMAPY_DATA/cta-1dc/caldb/data/cta/1dc/bcf/South_z20_50h/irf_file.fits"))]),
    .assign (.var ("pointing"))
      (C (V ("SkyCoord")) [pa (S ("0 deg")), pa (S ("0 deg"))]),
    .assign (.var ("obs"))
      (C (.attr (V ("Observation")) ("create"))
        [ka ("pointing") (V ("pointing")), ka ("irfs") (V ("irfs")),
         ka ("livetime") (S ("5 h"))]),
    -- cell: make the spectrum dataset
    .assign (.var ("spectrum_maker"))
      (C (V ("SpectrumDatasetMaker"))
        [ka ("selection")
          (.listE (A [pa (S ("aeff")), pa (S ("edisp")), pa (S ("background"))]))]),
    .assign (.var ("dataset"))
      (C (.attr (V ("spectrum_maker")) ("run"))
        [pa (V ("empty_dataset")), pa (V ("obs"))]),
    -- cell: containment correction
    .assign (.var ("containment")) (N ("0.68")),
    .comment ("correct effective area"),
    sAeffCorr,
    .comment ("correct background estimation"),
    sOnRadii,
    sFactor,
    sBkgCorr,
    -- cell: on/off dataset
    .assign (.var ("dataset_on_off"))
      (C (.attr (V ("SpectrumDatasetOnOff")) ("from_spectrum_dataset"))
        [ka ("dataset") (V ("dataset")), ka ("acceptance") (N ("1")),
         ka ("acceptance_off") (N ("5"))]),
    -- cell: sensitivity estimation
    .assign (.var ("sensitivity_estimator"))
      (C (V ("SensitivityEstimator"))
        [ka ("gamma_min") (N ("5")), ka ("sigma") (N ("3"))]),
    .assign (.var ("sensitivity_table"))
      (C (.attr (V ("sensitivity_estimator")) ("run")) [pa (V ("dataset_on_off"))]),
    -- cell: show the results table
    .comment ("Show the results table"),
    .exprStmt (V ("sensitivity_table")),
    -- cell: optional serialization (commented out)
    .comment ("Save it to file (could use e.g. format of CSV or ECSV or FITS)"),
    sWriteComment,
    -- cell: plot the sensitivity curve
    .comment ("Plot the sensitivity curve"),
    .assign (.var ("t")) (V ("sensitivity_table")),
    .assign (.var ("is_s"))
      (.binop ("==") (.index (V ("t")) (S ("criterion"))) (S ("significance"))),
    .exprStmt
      (C (.attr (V ("plt")) ("plot"))
        [pa (.index (.index (V ("t")) (S ("energy"))) (V ("is_s"))),
         pa (.index (.index (V ("t")) (S ("e2dnde"))) (V ("is_s"))),
         pa (S ("s-")), ka ("color") (S ("red")),
         ka ("label") (S ("significance"))]),
    .assign (.var ("is_g"))
      (.binop ("==") (.index (V ("t")) (S ("criterion"))) (S ("gamma"))),
    .exprStmt
      (C (.attr (V ("plt")) ("plot"))
        [pa (.index (.index (V ("t")) (S ("energy"))) (V ("is_g"))),
         pa (.index (.index (V ("t")) (S ("e2dnde"))) (V ("is_g"))),
         pa (S ("*-")), ka ("color") (S ("blue")), ka ("label") (S ("gamma"))]),
    .exprStmt (C (.attr (V ("plt")) ("loglog")) []),
    .exprStmt
      (C (.attr (V ("plt")) ("xlabel"))
        [pa (.fstr (A [pa (S ("Energy (")),
                       pa (.attr (.index (V ("t")) (S ("energy"))) ("unit")),
                       pa (S (")"))]))]),
    .exprStmt
      (C (.attr (V ("plt")) ("ylabel"))
        [pa (.fstr (A [pa (S ("Sensitivity (")),
                       pa (.attr (.index (V ("t")) (S ("e2dnde"))) ("unit")),
                       pa (S (")"))]))]),
    .exprStmt (C (.attr (V ("plt")) ("legend")) []),
    -- cell: plot expected counts for signal and background
    .comment ("Plot expected number of counts for signal and background"),
    .assign (.tupleT [("fig"), ("ax1")]) (C (.attr (V ("plt")) ("subplots")) []),
    .comment ("ax1.plot( t[\"energy\"], t[\"excess\"],\"o-\", color=\"red\", label=\"signal\")"),
    .exprStmt
      (C (.attr (V ("ax1")) ("plot"))
        [pa (.index (V ("t")) (S ("energy"))),
         pa (.index (V ("t")) (S ("background"))),
         pa (S ("o-")), ka ("color") (S ("black")),
         ka ("label") (S ("blackground"))]),
    .exprStmt (C (.attr (V ("ax1")) ("loglog")) []),
    .exprStmt
      (C (.attr (V ("ax1")) ("set_xlabel"))
        [pa (.fstr (A [pa (S ("Energy (")),
                       pa (.attr (.index (V ("t")) (S ("energy"))) ("unit")),
                       pa (S (")"))]))]),
    .exprStmt
      (C (.attr (V ("ax1")) ("set_ylabel"))
        [pa (S ("Expected number of bkg counts"))]),
    .assign (.var ("ax2")) (C (.attr (V ("ax1")) ("twinx")) []),
    .exprStmt
      (C (.attr (V ("ax2")) ("set_ylabel"))
        [pa (.fstr (A [pa (S ("ON region radius (")),
                       pa (.attr (V ("on_radii")) ("unit")),
                       pa (S (")"))])),
         ka ("color") (S ("red"))]),
    .exprStmt
      (C (.attr (V ("ax2")) ("semilogy"))
        [pa (.index (V ("t")) (S ("energy"))), pa (V ("on_radii")),
         ka ("color") (S ("red")), ka ("label") (S ("PSF68"))]),
    .exprStmt
      (C (.attr (V ("ax2")) ("tick_params"))
        [ka ("axis") (S ("y")), ka ("labelcolor") (S ("red"))]),
    .exprStmt
      (C (.attr (V ("ax2")) ("set_ylim")) [pa (N ("0.01")), pa (N ("0.5"))]) ]

/-! ## The `detect.ipynb` notebook, cell by cell -/

/-- `detect.ipynb`:
`mask_safe = counts.copy(data=np.ones_like(counts.data).astype("bool"))`. -/
def sMaskSafe : Stmt :=
  .assign (.var ("mask_safe"))
    (C (.attr (V ("counts")) ("copy"))
      [ka ("data")
        (C (.attr (C (.attr (V ("np")) ("ones_like"))
                    [pa (.attr (V ("counts")) ("data"))])
                  ("astype"))
          [pa (S ("bool"))])])

/-- All code-cell statements of `detect.ipynb`, in execution order. -/
def detectStmts : List Stmt :=
  [ -- cell: setup and imports
    .magic ("%matplotlib inline"),
    .importM ("matplotlib.pyplot") ("plt"),
    .importM ("matplotlib.cm") ("cm"),
    .importF ("gammapy.maps") [("Map")],
    .importF ("gammapy.estimators") [("ASmoothMapEstimator"), ("TSMapEstimator")],
    .importF ("gammapy.estimators.utils") [("find_peaks")],
    .importF ("gammapy.datasets") [("MapDataset")],
    .importF ("gammapy.modeling.models")
      [("BackgroundModel"), ("SkyModel"), ("PowerLawSpectralModel"),
       ("PointSpatialModel")],
    .importF ("gammapy.irf") [("PSFMap"), ("EnergyDependentTablePSF")],
    .importF ("astropy.coordinates") [("SkyCoord")],
    .importM ("astropy.units") ("u"),
    .importM ("numpy") ("np"),
    -- cell: read in input images, PSF and make a mask map
    .assign (.var ("counts"))
      (C (.attr (V ("Map")) ("read"))
        [pa (S ("$GAMMAPY_DATA/fermi-3fhl-gc/fermi-3fhl-gc-counts-cube.fits.gz"))]),
    .assign (.var ("background"))
      (C (.attr (V ("Map")) ("read"))
        [pa (S ("$GAMMAPY_DATA/fermi-3fhl-gc/fermi-3fhl-gc-background-cube.fits.gz"))]),
    .assign (.var ("background"))
      (C (V ("BackgroundModel"))
        [pa (V ("background")),
         ka ("datasets_names") (.listE (A [pa (S ("fermi-3fhl-gc"))]))]),
    .assign (.var ("exposure"))
      (C (.attr (V ("Map")) ("read"))
        [pa (S ("$GAMMAPY_DATA/fermi-3fhl-gc/fermi-3fhl-gc-exposure-cube.fits.gz"))]),
    .comment ("unit is not properly stored on the file. We add it manually"),
    .assign (.attrT (V ("exposure")) ("unit")) (S ("cm2s")),
    sMaskSafe,
    .assign (.var ("psf"))
      (C (.attr (V ("EnergyDependentTablePSF")) ("read"))
        [pa (S ("$GAMMAPY_DATA/fermi-3fhl-gc/fermi-3fhl-gc-psf-cube.fits.gz"))]),
    .assign (.var ("psfmap"))
      (C (.attr (V ("PSFMap")) ("from_energy_dependent_table_psf"))
        [pa (V ("psf"))]),
    .assign (.var ("dataset"))
      (C (V ("MapDataset"))
        [ka ("counts") (V ("counts")),
         ka ("models") (.listE (A [pa (V ("background"))])),
         ka ("exposure") (V ("exposure")),
         ka ("psf") (V ("psfmap")),
         ka ("mask_safe") (V ("mask_safe")),
         ka ("name") (S ("fermi-3fhl-gc"))]),
    .assign (.var ("dataset")) (C (.attr (V ("dataset")) ("to_image")) []),
    -- cell: adaptive smoothing
    .magic ("%%time"),
    .assign (.var ("scales"))
      (C (.attr (V ("u")) ("Quantity"))
        [pa (C (.attr (V ("np")) ("arange"))
              [pa (N ("0.05")), pa (N ("1")), pa (N ("0.05"))]),
         ka ("unit") (S ("deg"))]),
    .assign (.var ("smooth"))
      (C (V ("ASmoothMapEstimator"))
        [ka ("threshold") (N ("3")), ka ("scales") (V ("scales"))]),
    .assign (.var ("images")) (C (.attr (V ("smooth")) ("run")) [pa (V ("dataset"))]),
    .exprStmt
      (C (.attr (V ("plt")) ("figure"))
        [ka ("figsize") (.tupleE (A [pa (N ("15")), pa (N ("5"))]))]),
    .exprStmt
      (C (.attr (.index (V ("images")) (S ("counts"))) ("plot"))
        [ka ("add_cbar") (Bl true), ka ("vmax") (N ("10"))]),
    -- cell: TS map estimation, model definition
    .assign (.var ("spatial_model")) (C (V ("PointSpatialModel")) []),
    .assign (.var ("spectral_model"))
      (C (V ("PowerLawSpectralModel")) [ka ("index") (N ("2"))]),
    .assign (.var ("model"))
      (C (V ("SkyModel"))
        [ka ("spatial_model") (V ("spatial_model")),
         ka ("spectral_model") (V ("spectral_model"))]),
    -- cell: TS map estimation
    .magic ("%%time"),
    .assign (.var ("estimator"))
      (C (V ("TSMapEstimator"))
        [pa (V ("model")), ka ("kernel_width") (S ("0.4 deg"))]),
    .assign (.var ("images"))
      (C (.attr (V ("estimator")) ("run")) [pa (V ("dataset"))]),
    -- cell: plot the resulting images
    .exprStmt
      (C (.attr (V ("plt")) ("figure"))
        [ka ("figsize") (.tupleE (A [pa (N ("15")), pa (N ("5"))]))]),
    .exprStmt
      (C (.attr (.index (V ("images")) (S ("sqrt_ts"))) ("plot"))
        [ka ("add_cbar") (Bl true)]),
    .exprStmt
      (C (.attr (V ("plt")) ("figure"))
        [ka ("figsize") (.tupleE (A [pa (N ("15")), pa (N ("5"))]))]),
    .exprStmt
      (C (.attr (.index (V ("images")) (S ("flux"))) ("plot"))
        [ka ("add_cbar") (Bl true), ka ("stretch") (S ("sqrt")),
         ka ("vmin") (N ("0"))]),
    .exprStmt
      (C (.attr (V ("plt")) ("figure"))
        [ka ("figsize") (.tupleE (A [pa (N ("15")), pa (N ("5"))]))]),
    .exprStmt
      (C (.attr (.index (V ("images")) (S ("niter"))) ("plot"))
        [ka ("add_cbar") (Bl true)]),
    -- cell: source candidates via find_peaks
    .assign (.var ("sources"))
      (C (V ("find_peaks"))
        [pa (.index (V ("images")) (S ("sqrt_ts"))),
         ka ("threshold") (N ("8")), ka ("min_distance") (N ("1"))]),
    .assign (.var ("nsou")) (C (V ("len")) [pa (V ("sources"))]),
    .exprStmt (V ("sources")),
    -- cell: plot sources on top of the significance sky image
    .comment ("Plot sources on top of significance sky image"),
    .exprStmt
      (C (.attr (V ("plt")) ("figure"))
        [ka ("figsize") (.tupleE (A [pa (N ("15")), pa (N ("5"))]))]),
    .assign (.tupleT [("_"), ("ax"), ("_")])
      (C (.attr (.index (V ("images")) (S ("sqrt_ts"))) ("plot"))
        [ka ("add_cbar") (Bl true)]),
    .exprStmt
      (C (.attr (V ("ax")) ("scatter"))
        [pa (.index (V ("sources")) (S ("ra"))),
         pa (.index (V ("sources")) (S ("dec"))),
         ka ("transform")
           (C (.attr (C (.attr (V ("plt")) ("gca")) []) ("get_transform"))
             [pa (S ("icrs"))]),
         ka ("color") (S ("none")),
         ka ("edgecolor") (S ("w")),
         ka ("marker") (S ("o")),
         ka ("s") (N ("600")),
         ka ("lw") (N ("1.5"))]) ]

/-! ## Semantics

Every operation on library objects - imports, calls, attribute reads and
writes, operators, indexing, iterable unpacking, list / tuple / f-string
construction - is a query to an external-library oracle.  The oracle also
threads an abstract library-state `W` (the mutable state of the loaded
libraries, the filesystem, and the display), so in-place mutation of library
objects and plotting side effects are accounted for. -/

/-- A runtime value: a literal, or an opaque library object. -/
inductive Value where
  | litv (l : Lit)
  | obj (n : Nat)
deriving DecidableEq

/-- An operation delegated to the external libraries. -/
inductive Op where
  | attrGet (v : Value) (f : String)
  | attrSet (base : Value) (f : String) (rhs : Value)
  | callO (fn : Value) (args : List (Option String × Value))
  | binO (op : String) (a : Value) (b : Value)
  | indexO (a : Value) (i : Value)
  | listO (elts : List (Option String × Value))
  | tupleO (elts : List (Option String × Value))
  | fstrO (parts : List (Option String × Value))
  | importO (m : String) (item : Option String)
  | unpackO (v : Value) (n : Nat) (i : Nat)

/-- Errors during execution: an exception raised by a library call
(carrying the library's message), or a construct outside the straight-line
fragment this interpreter gives semantics to. -/
inductive Err where
  | lib (m : String)
  | unsupported
deriving DecidableEq

/-- An external-library oracle: a deterministic model of the libraries.
Given the current library state and an operation it either raises an
exception or returns a result value and the new library state. -/
def Orac (W : Type) := W → Op → Except String (Value × W)

/-- Local variable environment of the notebook. -/
def Env := String → Value

/-- Environment update (Python name binding). -/
def updEnv (ρ : Env) (x : String) (v : Value) : Env :=
  fun y => if y = x then v else ρ y

/-- Tag a library exception as a library-raised error, unchanged. -/
def liftO {W : Type} : Except String (Value × W) → Except Err (Value × W)
  | .error m => .error (.lib m)
  | .ok vw => .ok vw

/-- Error-propagating sequencing: run the continuation on a success,
propagate an error unchanged. -/
def andThenE {α β : Type} (f : α → Except Err β) : Except Err α → Except Err β
  | .error x => .error x
  | .ok a => f a

mutual
/-- Evaluate an expression.  Locals and literals are evaluated directly;
everything else is delegated to the oracle.  Sub-results are pairs of a
value (`.1`) and the library state after the sub-evaluation (`.2`). -/
def evalExpr {W : Type} (o : Orac W) : Env → W → Expr → Except Err (Value × W)
  | ρ, w, .name x => .ok (ρ x, w)
  | _, w, .lit l => .ok (.litv l, w)
  | ρ, w, .attr e f =>
    andThenE (fun vw => liftO (o vw.2 (.attrGet vw.1 f))) (evalExpr o ρ w e)
  | ρ, w, .call fn a =>
    andThenE (fun fw =>
        andThenE (fun aw => liftO (o aw.2 (.callO fw.1 aw.1)))
          (evalArgs o ρ fw.2 a))
      (evalExpr o ρ w fn)
  | ρ, w, .binop op a b =>
    andThenE (fun aw =>
        andThenE (fun bw => liftO (o bw.2 (.binO op aw.1 bw.1)))
          (evalExpr o ρ aw.2 b))
      (evalExpr o ρ w a)
  | ρ, w, .index a i =>
    andThenE (fun aw =>
        andThenE (fun iw => liftO (o iw.2 (.indexO aw.1 iw.1)))
          (evalExpr o ρ aw.2 i))
      (evalExpr o ρ w a)
  | ρ, w, .listE a =>
    andThenE (fun aw => liftO (o aw.2 (.listO aw.1))) (evalArgs o ρ w a)
  | ρ, w, .tupleE a =>
    andThenE (fun aw => liftO (o aw.2 (.tupleO aw.1))) (evalArgs o ρ w a)
  | ρ, w, .fstr a =>
    andThenE (fun aw => liftO (o aw.2 (.fstrO aw.1))) (evalArgs o ρ w a)

/-- Evaluate an argument list left to right. -/
def evalArgs {W : Type} (o : Orac W) :
    Env → W → Args → Except Err (List (Option String × Value) × W)
  | _, w, .nil => .ok ([], w)
  | ρ, w, .pos e r =>
    andThenE (fun vw =>
        andThenE (fun rw' => .ok ((none, vw.1) :: rw'.1, rw'.2))
          (evalArgs o ρ vw.2 r))
      (evalExpr o ρ w e)
  | ρ, w, .kw key e r =>
    andThenE (fun vw =>
        andThenE (fun rw' => .ok ((some key, vw.1) :: rw'.1, rw'.2))
          (evalArgs o ρ vw.2 r))
      (evalExpr o ρ w e)
end

/-- Bind the components of an unpacking assignment `x0, ..., xn = v`
one by one, each component extracted by the oracle. -/
def bindUnpack {W : Type} (o : Orac W) (n : Nat) (v : Value) :
    Env → W → Nat → List String → Except Err (Env × W)
  | ρ, w, _, [] => .ok (ρ, w)
  | ρ, w, i, x :: rest =>
    andThenE (fun xw => bindUnpack o n v (updEnv ρ x xw.1) xw.2 (i + 1) rest)
      (liftO (o w (.unpackO v n i)))

/-- Bind the names of a `from m import a, b, ...` statement one by one. -/
def bindFrom {W : Type} (o : Orac W) (m : String) :
    Env → W → List String → Except Err (Env × W)
  | ρ, w, [] => .ok (ρ, w)
  | ρ, w, x :: rest =>
    andThenE (fun vw => bindFrom o m (updEnv ρ x vw.1) vw.2 rest)
      (liftO (o w (.importO m (some x))))

/-- Execute one statement.  Compound statements (loops, conditionals,
try/except, function definitions) are outside the straight-line fragment
and yield `Err.unsupported`; the theorems below show the notebooks never
reach that case. -/
def execStmt {W : Type} (o : Orac W) (ρ : Env) (w : W) :
    Stmt → Except Err (Env × W)
  | .assign (.var x) e =>
    andThenE (fun vw => .ok (updEnv ρ x vw.1, vw.2)) (evalExpr o ρ w e)
  | .assign (.attrT b f) e =>
    andThenE (fun vw =>
        andThenE (fun bw =>
            andThenE (fun uw => .ok (ρ, uw.2))
              (liftO (o bw.2 (.attrSet bw.1 f vw.1))))
          (evalExpr o ρ vw.2 b))
      (evalExpr o ρ w e)
  | .assign (.tupleT xs) e =>
    andThenE (fun vw => bindUnpack o xs.length vw.1 ρ vw.2 0 xs)
      (evalExpr o ρ w e)
  | .augAttr b f op e =>
    andThenE (fun bw =>
        andThenE (fun cw =>
            andThenE (fun rw' =>
                andThenE (fun mw =>
                    andThenE (fun uw => .ok (ρ, uw.2))
                      (liftO (o mw.2 (.attrSet bw.1 f mw.1))))
                  (liftO (o rw'.2 (.binO op cw.1 rw'.1))))
              (evalExpr o ρ cw.2 e))
          (liftO (o bw.2 (.attrGet bw.1 f))))
      (evalExpr o ρ w b)
  | .exprStmt e =>
    andThenE (fun vw => .ok (ρ, vw.2)) (evalExpr o ρ w e)
  | .importM m al =>
    andThenE (fun vw => .ok (updEnv ρ al vw.1, vw.2))
      (liftO (o w (.importO m none)))
  | .importF m xs => bindFrom o m ρ w xs
  | .magic _ => .ok (ρ, w)
  | .comment _ => .ok (ρ, w)
  | .forS _ _ _ => .error .unsupported
  | .whileS _ _ => .error .unsupported
  | .ifS _ _ _ => .error .unsupported
  | .tryS _ _ => .error .unsupported
  | .defS _ _ _ => .error .unsupported

/-- Execute a program: the statements of a notebook, in order.  Defined by
structural recursion, so on the straight-line fragment the interpreter is
total: it terminates for every (total) oracle. -/
def execProg {W : Type} (o : Orac W) : Env → W → List Stmt → Except Err (Env × W)
  | ρ, w, [] => .ok (ρ, w)
  | ρ, w, s :: rest =>
    andThenE (fun ew => execProg o ew.1 ew.2 rest) (execStmt o ρ w s)

/-- The initial environment: every name unbound (an opaque placeholder). -/
def envInit : Env := fun _ => .obj 0

/-- The error `x` is an exception raised by the oracle `o`, forwarded
unchanged: some library operation, at some library state, raised exactly
the message carried by `x`. -/
def OracErr {W : Type} (o : Orac W) (x : Err) : Prop :=
  ∃ w op m, o w op = .error m ∧ x = Err.lib m

/-! ## Syntactic predicates over the embedded programs -/

/-- A statement of the straight-line fragment: not a loop, conditional,
try/except or function definition. -/
def isStraight : Stmt → Bool
  | .assign _ _ => true
  | .augAttr _ _ _ _ => true
  | .exprStmt _ => true
  | .importM _ _ => true
  | .importF _ _ => true
  | .magic _ => true
  | .comment _ => true
  | .forS _ _ _ => false
  | .whileS _ _ => false
  | .ifS _ _ _ => false
  | .tryS _ _ => false
  | .defS _ _ _ => false

/-- A program is straight-line when every statement is.  Since compound
bodies can only occur inside compound statements, a straight-line program
contains no loop, conditional, try/except or function definition at all. -/
def straightLine (p : List Stmt) : Bool := p.all isStraight

/-- Does the statement catch exceptions (a `try`/`except`)? -/
def isTryStmt : Stmt → Bool
  | .tryS _ _ => true
  | _ => false

/-- Does the statement define a function (the only way the notebook could
author a callable, and the only way to write recursion)? -/
def isDefStmt : Stmt → Bool
  | .defS _ _ _ => true
  | _ => false

mutual
/-- Does some subexpression satisfy `q`? -/
def exprAny (q : Expr → Bool) : Expr → Bool
  | .name x => q (.name x)
  | .lit l => q (.lit l)
  | .attr e f => q (.attr e f) || exprAny q e
  | .call fn a => q (.call fn a) || exprAny q fn || argsAny q a
  | .binop op a b => q (.binop op a b) || exprAny q a || exprAny q b
  | .index a i => q (.index a i) || exprAny q a || exprAny q i
  | .listE a => q (.listE a) || argsAny q a
  | .tupleE a => q (.tupleE a) || argsAny q a
  | .fstr a => q (.fstr a) || argsAny q a

/-- Does some expression of the argument list satisfy `q` somewhere? -/
def argsAny (q : Expr → Bool) : Args → Bool
  | .nil => false
  | .pos e r => exprAny q e || argsAny q r
  | .kw _ e r => exprAny q e || argsAny q r
end

/-- Does some expression inside the target satisfy `q` somewhere? -/
def targetAny (q : Expr → Bool) : Target → Bool
  | .var _ => false
  | .attrT b _ => exprAny q b
  | .tupleT _ => false

/-- Does some expression of the statement satisfy `q` somewhere?  The
compound statements are conservatively flagged `true` (their bodies are not
scanned); the programs under study contain none (`straightLine`). -/
def stmtAny (q : Expr → Bool) : Stmt → Bool
  | .assign t e => targetAny q t || exprAny q e
  | .augAttr b _ _ e => exprAny q b || exprAny q e
  | .exprStmt e => exprAny q e
  | .importM _ _ => false
  | .importF _ _ => false
  | .magic _ => false
  | .comment _ => false
  | .forS _ _ _ => true
  | .whileS _ _ => true
  | .ifS _ _ _ => true
  | .tryS _ _ => true
  | .defS _ _ _ => true

/-- An arithmetic operator (as opposed to comparison). -/
def isArithOp (op : String) : Bool :=
  op == ("+") || op == ("-") || op == ("*") || op == ("/") || op == ("**")

/-- An expression node that is itself an arithmetic operation. -/
def isArithNode : Expr → Bool
  | .binop op _ _ => isArithOp op
  | _ => false

/-- Does the statement author an arithmetic computation: an arithmetic
binary operator in one of its expressions, or an arithmetic augmented
assignment? -/
def stmtUsesArith (s : Stmt) : Bool :=
  stmtAny isArithNode s ||
    (match s with
     | .augAttr _ _ op _ => isArithOp op
     | _ => false)

/-- A call node whose callee is the attribute `f` of some object. -/
def callsAttrNamed (f : String) : Expr → Bool
  | .call (.attr _ g) _ => g == f
  | _ => false

/-- A call node `x.run(...)` on the variable `x`. -/
def callsRunOn (x : String) : Expr → Bool
  | .call (.attr (.name y) g) _ => g == ("run") && y == x
  | _ => false

/-- A call node constructing one of the estimator classes that the
notebooks import from `gammapy.estimators`. -/
def callsEstimatorCtor : Expr → Bool
  | .call (.name f) _ =>
    f == ("SensitivityEstimator") || f == ("ASmoothMapEstimator") ||
      f == ("TSMapEstimator")
  | _ => false

/-- Number of statements that construct an estimator object. -/
def estimatorStmtCount (p : List Stmt) : Nat :=
  (p.filter (stmtAny callsEstimatorCtor)).length

/-- A call node that would write a file: a `.write` / `.writeto` /
`.to_csv` / `.savefig` / `.save` method, or the builtin `open`. -/
def isWriteCallNode : Expr → Bool
  | .call (.attr _ f) _ =>
    f == ("write") || f == ("writeto") || f == ("to_csv") ||
      f == ("savefig") || f == ("save")
  | .call (.name f) _ => f == ("open")
  | _ => false

/-- A call node that reads an input file: a `.read` classmethod of a
library class, or `load_cta_irfs`. -/
def isReadCallNode : Expr → Bool
  | .call (.attr _ f) _ => f == ("read")
  | .call (.name f) _ => f == ("load_cta_irfs")
  | _ => false

/-- A call node that constructs a library dataset object. -/
def isDatasetCallNode : Expr → Bool
  | .call (.name f) _ => f == ("MapDataset")
  | .call (.attr (.name b) f) _ =>
    (b == ("SpectrumDataset") && f == ("create")) ||
      (b == ("SpectrumDatasetOnOff") && f == ("from_spectrum_dataset")) ||
      (b == ("spectrum_maker") && f == ("run"))
  | _ => false

/-- A call node that invokes an estimator: its construction or its `run`. -/
def isEstimatorStageNode (e : Expr) : Bool :=
  callsEstimatorCtor e || callsRunOn ("sensitivity_estimator") e ||
    callsRunOn ("smooth") e || callsRunOn ("estimator") e

/-- A node of the inspect / plot stage: a `plt.*` call. -/
def isPltCallNode : Expr → Bool
  | .call (.attr (.name b) _) _ => b == ("plt")
  | _ => false

/-- The statement belongs to the inspect / plot stage: a plotting call or a
bare expression statement displaying a result object. -/
def isInspectStage (s : Stmt) : Bool :=
  stmtAny isPltCallNode s ||
    (match s with
     | .exprStmt (.name _) => true
     | _ => false)

/-- The tail of the list after the first statement satisfying `q`. -/
def afterFirst (q : Stmt → Bool) : List Stmt → Option (List Stmt)
  | [] => none
  | s :: r => if q s then some r else afterFirst q r

/-- The notebook follows the chain: a file read, later a dataset
construction, later an estimator invocation, later an inspection / plot. -/
def chainHolds (prog : List Stmt) : Bool :=
  match afterFirst (stmtAny isReadCallNode) prog with
  | none => false
  | some r1 =>
    match afterFirst (stmtAny isDatasetCallNode) r1 with
    | none => false
    | some r2 =>
      match afterFirst (stmtAny isEstimatorStageNode) r2 with
      | none => false
      | some r3 => r3.any isInspectStage

mutual
/-- All string literals of an expression, in source order. -/
def exprStrs : Expr → List String
  | .name _ => []
  | .lit (.str s) => [s]
  | .lit _ => []
  | .attr e _ => exprStrs e
  | .call fn a => exprStrs fn ++ argsStrs a
  | .binop _ a b => exprStrs a ++ exprStrs b
  | .index a i => exprStrs a ++ exprStrs i
  | .listE a => argsStrs a
  | .tupleE a => argsStrs a
  | .fstr a => argsStrs a

/-- All string literals of an argument list. -/
def argsStrs : Args → List String
  | .nil => []
  | .pos e r => exprStrs e ++ argsStrs r
  | .kw _ e r => exprStrs e ++ argsStrs r
end

/-- All string literals of a statement (comments and magics are not string
literals of the code). -/
def stmtStrs : Stmt → List String
  | .assign (.var _) e => exprStrs e
  | .assign (.attrT b _) e => exprStrs e ++ exprStrs b
  | .assign (.tupleT _) e => exprStrs e
  | .augAttr b _ _ e => exprStrs b ++ exprStrs e
  | .exprStmt e => exprStrs e
  | _ => []

/-- All string literals of a program. -/
def progStrs (p : List Stmt) : List String := p.flatMap stmtStrs

/-- `s` starts with `pre` (checked on the underlying character lists). -/
def strHasPre (pre s : String) : Bool := pre.data.isPrefixOf s.data

/-- `s` ends with `suf` (checked on the underlying character lists). -/
def strHasSuffix (suf s : String) : Bool := suf.data.isSuffixOf s.data

/-- The input-file paths mentioned by the program: its `$GAMMAPY_DATA`
string literals. -/
def dataPaths (p : List Stmt) : List String :=
  (progStrs p).filter (strHasPre ("$GAMMAPY_DATA"))

/-- The path names a FITS file. -/
def isFitsPath (s : String) : Bool :=
  strHasSuffix (".fits") s || strHasSuffix (".fits.gz") s

/-- Modules whose import would introduce threads, processes or
asynchronous tasks. -/
def isConcurModule (m : String) : Bool :=
  m == ("threading") || m == ("multiprocessing") || m == ("asyncio") ||
    m == ("concurrent.futures") || m == ("concurrent") || m == ("subprocess")

/-- The modules imported by a statement. -/
def importsOf : Stmt → List String
  | .importM m _ => [m]
  | .importF m _ => [m]
  | _ => []

/-- All modules imported by a program. -/
def progImports (p : List Stmt) : List String := p.flatMap importsOf

/-- A call node that would create a thread, process, task or pool. -/
def spawnsConcurNode : Expr → Bool
  | .call (.name f) _ =>
    f == ("Thread") || f == ("Process") || f == ("Pool")
  | .call (.attr _ f) _ =>
    f == ("Thread") || f == ("Process") || f == ("Pool") ||
      f == ("create_task") || f == ("run_in_executor") || f == ("submit") ||
      f == ("start") || f == ("fork")
  | _ => false

/-! ## Real-valued model of the containment-correction cell

The state visible to the containment-correction cell of
`cta_sensitivity.ipynb`, modelled over the reals.  Angles are stored as
their radian measure (numpy's `np.cos` converts an astropy `Angle` to
radians before taking the cosine).  Array-valued library data are modelled
as functions from bin indices to reals; the library-computed quantities
(`aeff`, `background`, `edisp`, the PSF containment-radius lookup table,
the energy-axis bin centers) are abstract fields, since they come from the
IRF files via library calls. -/

/-- Angle of `x` degrees, in radians. -/
noncomputable def deg (x : ℝ) : ℝ := x * (Real.pi / 180)

/-- The program state of `cta_sensitivity.ipynb` just before the
containment-correction cell. -/
structure SensState where
  /-- `region.center` right ascension (from `SkyCoord("0 deg", "0.5 deg")`). -/
  regionCenterRa : ℝ
  /-- `region.center` declination. -/
  regionCenterDec : ℝ
  /-- `region.radius`: the 0.1 deg extraction radius, in radians. -/
  regionRadius : ℝ
  /-- `e_reco.center k`: center of the k-th reconstructed-energy bin. -/
  eRecoCenter : ℕ → ℝ
  /-- `e_true.center j`: center of the j-th true-energy bin. -/
  eTrueCenter : ℕ → ℝ
  /-- `dataset.aeff.data.data j`: effective area in true-energy bin j. -/
  aeff : ℕ → ℝ
  /-- `dataset.background.data k`: background in reconstructed-energy bin k. -/
  background : ℕ → ℝ
  /-- `dataset.edisp` migration matrix. -/
  edisp : ℕ → ℕ → ℝ
  /-- `obs.psf.containment_radius energy theta fraction`, in radians. -/
  psfContainmentRadius : ℝ → ℝ → ℝ → ℝ
  /-- `obs.observation_live_time_duration`: the 5 h livetime. -/
  livetime : ℝ

/-- The containment-correction cell of `cta_sensitivity.ipynb`:

`containment = 0.68`;
`dataset.aeff.data.data *= containment`;
`on_radii = obs.psf.containment_radius(energy=e_reco.center, theta=0.5 * u.deg, fraction=containment)[0]`;
`factor = (1 - np.cos(on_radii)) / (1 - np.cos(region.radius))`;
`dataset.background.data *= factor.value.reshape((-1, 1, 1))`.

The vectorized library calls act bin-wise; the trailing `[0]` selects the
radii at the single requested offset, which the model's lookup function
already takes as its `theta` argument.  The reshape to `(-1, 1, 1)`
broadcasts the per-energy factor over the single spatial bin of the region
geometry, which the model's one-index `background` already reflects. -/
noncomputable def containmentCell (s : SensState) : SensState :=
  let containment : ℝ := 0.68
  let onRadii : ℕ → ℝ := fun k =>
    s.psfContainmentRadius (s.eRecoCenter k) (deg 0.5) containment
  let factor : ℕ → ℝ := fun k =>
    (1 - Real.cos (onRadii k)) / (1 - Real.cos s.regionRadius)
  { s with
    aeff := fun j => s.aeff j * containment,
    background := fun k => s.background k * factor k }

/-! ## Real-valued model of the `mask_safe` construction of `detect.ipynb` -/

/-- A 3-dimensional library data cube (energy, latitude pixel, longitude
pixel) of reals, as held by a gammapy `Map`. -/
structure Cube where
  /-- Number of energy planes. -/
  nE : ℕ
  /-- Number of pixel rows. -/
  nY : ℕ
  /-- Number of pixel columns. -/
  nX : ℕ
  /-- The array entries. -/
  data : ℕ → ℕ → ℕ → ℝ

/-- A boolean data cube on the same geometry (the mask of a `Map`). -/
structure MaskCube where
  /-- Number of energy planes. -/
  nE : ℕ
  /-- Number of pixel rows. -/
  nY : ℕ
  /-- Number of pixel columns. -/
  nX : ℕ
  /-- Whether the pixel is selected. -/
  data : ℕ → ℕ → ℕ → Prop

/-- `np.ones_like(c)`: an array of ones with the shape of `c`. -/
def onesLike (c : Cube) : Cube :=
  { nE := c.nE, nY := c.nY, nX := c.nX, data := fun _ _ _ => 1 }

/-- `.astype("bool")`: numpy converts a number to `True` exactly when it is
nonzero. -/
def astypeBool (c : Cube) : MaskCube :=
  { nE := c.nE, nY := c.nY, nX := c.nX, data := fun i j k => c.data i j k ≠ 0 }

/-- `counts.copy(data=m)`: a map with the geometry of `counts` and the
given data. -/
def copyWithData (counts : Cube) (m : MaskCube) : MaskCube :=
  { nE := counts.nE, nY := counts.nY, nX := counts.nX, data := m.data }

/-- `mask_safe = counts.copy(data=np.ones_like(counts.data).astype("bool"))`. -/
def maskSafe (counts : Cube) : MaskCube :=
  copyWithData counts (astypeBool (onesLike counts))

/-! ## Concrete fixtures used by the witness theorems -/

/-- An oracle for which every library operation raises a
`FileNotFoundError`. -/
def oracFail : Orac Unit := fun _ _ => .error ("FileNotFoundError")

/-- A trivial oracle: every library operation succeeds with an opaque
object and leaves the library state unchanged. -/
def oracTrivA : Orac Unit := fun w _ => .ok (.obj 1, w)

/-- A second presentation of the same trivial oracle. -/
def oracTrivB : Orac Unit := fun w _ => .ok (.obj 1, w)

/-- A concrete pre-cell state used to instantiate the containment-cell
theorem. -/
noncomputable def sensStateW : SensState :=
  { regionCenterRa := 0
    regionCenterDec := deg 0.5
    regionRadius := deg 0.1
    eRecoCenter := fun _ => 1
    eTrueCenter := fun _ => 1
    aeff := fun _ => 2
    background := fun _ => 3
    edisp := fun _ _ => 0
    psfContainmentRadius := fun _ _ _ => deg 0.05
    livetime := 5 }

/-! ## General lemmas about the interpreter -/

theorem andThenE_congr {α β : Type} {f g : α → Except Err β}
    {r r' : Except Err α} (hr : r = r') (h : ∀ a, f a = g a) :
    andThenE f r = andThenE g r' := by
  subst hr
  cases r with
  | error _ => rfl
  | ok a => exact h a

theorem andThenE_err {α β : Type} {f : α → Except Err β}
    {r : Except Err α} {x : Err} (h : andThenE f r = .error x) :
    r = .error x ∨ ∃ a, r = .ok a ∧ f a = .error x := by
  cases r with
  | error y =>
    left
    exact congrArg Except.error (Except.error.inj h).symm ▸ rfl
  | ok a => exact Or.inr ⟨a, rfl, h⟩

theorem liftO_err {W : Type} {r : Except String (Value × W)} {x : Err}
    (h : liftO r = .error x) : ∃ m, r = .error m ∧ x = Err.lib m := by
  cases r with
  | error m => exact ⟨m, rfl, (Except.error.inj h).symm⟩
  | ok vw => exact absurd h (by simp [liftO])

theorem liftO_oracErr {W : Type} {o : Orac W} {w : W} {op : Op} {x : Err}
    (h : liftO (o w op) = .error x) : OracErr o x := by
  obtain ⟨m, hm, hx⟩ := liftO_err h
  exact ⟨w, op, m, hm, hx⟩

/-! ### The interpreter is a function of the oracle alone:
pointwise-equal oracles give identical runs. -/

mutual
theorem evalExpr_oc {W : Type} (o1 o2 : Orac W)
    (hO : ∀ w op, o1 w op = o2 w op) :
    ∀ ρ w e, evalExpr o1 ρ w e = evalExpr o2 ρ w e
  | _, _, .name _ => rfl
  | _, _, .lit _ => rfl
  | ρ, w, .attr e f =>
    andThenE_congr (evalExpr_oc o1 o2 hO ρ w e)
      (fun vw => congrArg liftO (hO vw.2 (.attrGet vw.1 f)))
  | ρ, w, .call fn a =>
    andThenE_congr (evalExpr_oc o1 o2 hO ρ w fn)
      (fun fw =>
        andThenE_congr (evalArgs_oc o1 o2 hO ρ fw.2 a)
          (fun aw => congrArg liftO (hO aw.2 (.callO fw.1 aw.1))))
  | ρ, w, .binop op a b =>
    andThenE_congr (evalExpr_oc o1 o2 hO ρ w a)
      (fun aw =>
        andThenE_congr (evalExpr_oc o1 o2 hO ρ aw.2 b)
          (fun bw => congrArg liftO (hO bw.2 (.binO op aw.1 bw.1))))
  | ρ, w, .index a i =>
    andThenE_congr (evalExpr_oc o1 o2 hO ρ w a)
      (fun aw =>
        andThenE_congr (evalExpr_oc o1 o2 hO ρ aw.2 i)
          (fun iw => congrArg liftO (hO iw.2 (.indexO aw.1 iw.1))))
  | ρ, w, .listE a =>
    andThenE_congr (evalArgs_oc o1 o2 hO ρ w a)
      (fun aw => congrArg liftO (hO aw.2 (.listO aw.1)))
  | ρ, w, .tupleE a =>
    andThenE_congr (evalArgs_oc o1 o2 hO ρ w a)
      (fun aw => congrArg liftO (hO aw.2 (.tupleO aw.1)))
  | ρ, w, .fstr a =>
    andThenE_congr (evalArgs_oc o1 o2 hO ρ w a)
      (fun aw => congrArg liftO (hO aw.2 (.fstrO aw.1)))

theorem evalArgs_oc {W : Type} (o1 o2 : Orac W)
    (hO : ∀ w op, o1 w op = o2 w op) :
    ∀ ρ w a, evalArgs o1 ρ w a = evalArgs o2 ρ w a
  | _, _, .nil => rfl
  | ρ, w, .pos e r =>
    andThenE_congr (evalExpr_oc o1 o2 hO ρ w e)
      (fun vw =>
        andThenE_congr (evalArgs_oc o1 o2 hO ρ vw.2 r) (fun _ => rfl))
  | ρ, w, .kw _ e r =>
    andThenE_congr (evalExpr_oc o1 o2 hO ρ w e)
      (fun vw =>
        andThenE_congr (evalArgs_oc o1 o2 hO ρ vw.2 r) (fun _ => rfl))
end

theorem bindUnpack_oc {W : Type} (o1 o2 : Orac W)
    (hO : ∀ w op, o1 w op = o2 w op) (n : Nat) (v : Value) :
    ∀ ρ w i xs, bindUnpack o1 n v ρ w i xs = bindUnpack o2 n v ρ w i xs
  | _, _, _, [] => rfl
  | ρ, w, i, x :: rest =>
    andThenE_congr (congrArg liftO (hO w (.unpackO v n i)))
      (fun xw => bindUnpack_oc o1 o2 hO n v (updEnv ρ x xw.1) xw.2 (i + 1) rest)

theorem bindFrom_oc {W : Type} (o1 o2 : Orac W)
    (hO : ∀ w op, o1 w op = o2 w op) (m : String) :
    ∀ ρ w xs, bindFrom o1 m ρ w xs = bindFrom o2 m ρ w xs
  | _, _, [] => rfl
  | ρ, w, x :: rest =>
    andThenE_congr (congrArg liftO (hO w (.importO m (some x))))
      (fun vw => bindFrom_oc o1 o2 hO m (updEnv ρ x vw.1) vw.2 rest)

theorem execStmt_oc {W : Type} (o1 o2 : Orac W)
    (hO : ∀ w op, o1 w op = o2 w op) (ρ : Env) (w : W) :
    ∀ s, execStmt o1 ρ w s = execStmt o2 ρ w s
  | .assign (.var _) e =>
    andThenE_congr (evalExpr_oc o1 o2 hO ρ w e) (fun _ => rfl)
  | .assign (.attrT b f) e =>
    andThenE_congr (evalExpr_oc o1 o2 hO ρ w e)
      (fun vw =>
        andThenE_congr (evalExpr_oc o1 o2 hO ρ vw.2 b)
          (fun bw =>
            andThenE_congr (congrArg liftO (hO bw.2 (.attrSet bw.1 f vw.1)))
              (fun _ => rfl)))
  | .assign (.tupleT xs) e =>
    andThenE_congr (evalExpr_oc o1 o2 hO ρ w e)
      (fun vw => bindUnpack_oc o1 o2 hO xs.length vw.1 ρ vw.2 0 xs)
  | .augAttr b f op e =>
    andThenE_congr (evalExpr_oc o1 o2 hO ρ w b)
      (fun bw =>
        andThenE_congr (congrArg liftO (hO bw.2 (.attrGet bw.1 f)))
          (fun cw =>
            andThenE_congr (evalExpr_oc o1 o2 hO ρ cw.2 e)
              (fun rw' =>
                andThenE_congr
                    (congrArg liftO (hO rw'.2 (.binO op cw.1 rw'.1)))
                  (fun mw =>
                    andThenE_congr
                        (congrArg liftO (hO mw.2 (.attrSet bw.1 f mw.1)))
                      (fun _ => rfl)))))
  | .exprStmt e =>
    andThenE_congr (evalExpr_oc o1 o2 hO ρ w e) (fun _ => rfl)
  | .importM m _ =>
    andThenE_congr (congrArg liftO (hO w (.importO m none))) (fun _ => rfl)
  | .importF m xs => bindFrom_oc o1 o2 hO m ρ w xs
  | .magic _ => rfl
  | .comment _ => rfl
  | .forS _ _ _ => rfl
  | .whileS _ _ => rfl
  | .ifS _ _ _ => rfl
  | .tryS _ _ => rfl
  | .defS _ _ _ => rfl

theorem execProg_oc {W : Type} (o1 o2 : Orac W)
    (hO : ∀ w op, o1 w op = o2 w op) :
    ∀ ρ w p, execProg o1 ρ w p = execProg o2 ρ w p
  | _, _, [] => rfl
  | ρ, w, s :: rest =>
    andThenE_congr (execStmt_oc o1 o2 hO ρ w s)
      (fun ew => execProg_oc o1 o2 hO ew.1 ew.2 rest)

/-! ### Any error of a run is an exception raised by a library operation,
forwarded unchanged. -/

mutual
theorem evalExpr_err {W : Type} (o : Orac W) :
    ∀ ρ w e x, evalExpr o ρ w e = .error x → OracErr o x
  | _, _, .name _, _, h => Except.noConfusion h
  | _, _, .lit _, _, h => Except.noConfusion h
  | ρ, w, .attr e _, x, h =>
    (andThenE_err h).elim
      (fun h1 => evalExpr_err o ρ w e x h1)
      (fun h2 => match h2 with
        | ⟨_, _, h3⟩ => liftO_oracErr h3)
  | ρ, w, .call fn a, x, h =>
    (andThenE_err h).elim
      (fun h1 => evalExpr_err o ρ w fn x h1)
      (fun h2 => match h2 with
        | ⟨fw, _, h3⟩ =>
          (andThenE_err h3).elim
            (fun h4 => evalArgs_err o ρ fw.2 a x h4)
            (fun h5 => match h5 with
              | ⟨_, _, h6⟩ => liftO_oracErr h6))
  | ρ, w, .binop _ a b, x, h =>
    (andThenE_err h).elim
      (fun h1 => evalExpr_err o ρ w a x h1)
      (fun h2 => match h2 with
        | ⟨aw, _, h3⟩ =>
          (andThenE_err h3).elim
            (fun h4 => evalExpr_err o ρ aw.2 b x h4)
            (fun h5 => match h5 with
              | ⟨_, _, h6⟩ => liftO_oracErr h6))
  | ρ, w, .index a i, x, h =>
    (andThenE_err h).elim
      (fun h1 => evalExpr_err o ρ w a x h1)
      (fun h2 => match h2 with
        | ⟨aw, _, h3⟩ =>
          (andThenE_err h3).elim
            (fun h4 => evalExpr_err o ρ aw.2 i x h4)
            (fun h5 => match h5 with
              | ⟨_, _, h6⟩ => liftO_oracErr h6))
  | ρ, w, .listE a, x, h =>
    (andThenE_err h).elim
      (fun h1 => evalArgs_err o ρ w a x h1)
      (fun h2 => match h2 with
        | ⟨_, _, h3⟩ => liftO_oracErr h3)
  | ρ, w, .tupleE a, x, h =>
    (andThenE_err h).elim
      (fun h1 => evalArgs_err o ρ w a x h1)
      (fun h2 => match h2 with
        | ⟨_, _, h3⟩ => liftO_oracErr h3)
  | ρ, w, .fstr a, x, h =>
    (andThenE_err h).elim
      (fun h1 => evalArgs_err o ρ w a x h1)
      (fun h2 => match h2 with
        | ⟨_, _, h3⟩ => liftO_oracErr h3)

theorem evalArgs_err {W : Type} (o : Orac W) :
    ∀ ρ w a x, evalArgs o ρ w a = .error x → OracErr o x
  | _, _, .nil, _, h => Except.noConfusion h
  | ρ, w, .pos e r, x, h =>
    (andThenE_err h).elim
      (fun h1 => evalExpr_err o ρ w e x h1)
      (fun h2 => match h2 with
        | ⟨vw, _, h3⟩ =>
          (andThenE_err h3).elim
            (fun h4 => evalArgs_err o ρ vw.2 r x h4)
            (fun h5 => match h5 with
              | ⟨_, _, h6⟩ => Except.noConfusion h6))
  | ρ, w, .kw _ e r, x, h =>
    (andThenE_err h).elim
      (fun h1 => evalExpr_err o ρ w e x h1)
      (fun h2 => match h2 with
        | ⟨vw, _, h3⟩ =>
          (andThenE_err h3).elim
            (fun h4 => evalArgs_err o ρ vw.2 r x h4)
            (fun h5 => match h5 with
              | ⟨_, _, h6⟩ => Except.noConfusion h6))
end

theorem bindUnpack_err {W : Type} (o : Orac W) (n : Nat) (v : Value) :
    ∀ ρ w i xs x, bindUnpack o n v ρ w i xs = .error x → OracErr o x
  | _, _, _, [], _, h => Except.noConfusion h
  | ρ, _, i, y :: rest, x, h =>
    (andThenE_err h).elim
      (fun h1 => liftO_oracErr h1)
      (fun h2 => match h2 with
        | ⟨xw, _, h3⟩ =>
          bindUnpack_err o n v (updEnv ρ y xw.1) xw.2 (i + 1) rest x h3)

theorem bindFrom_err {W : Type} (o : Orac W) (m : String) :
    ∀ ρ w xs x, bindFrom o m ρ w xs = .error x → OracErr o x
  | _, _, [], _, h => Except.noConfusion h
  | ρ, _, y :: rest, x, h =>
    (andThenE_err h).elim
      (fun h1 => liftO_oracErr h1)
      (fun h2 => match h2 with
        | ⟨vw, _, h3⟩ =>
          bindFrom_err o m (updEnv ρ y vw.1) vw.2 rest x h3)

theorem execStmt_err {W : Type} (o : Orac W) (ρ : Env) (w : W) :
    ∀ s, isStraight s = true →
      ∀ x, execStmt o ρ w s = .error x → OracErr o x
  | .assign (.var _) e, _, x, h =>
    (andThenE_err h).elim
      (fun h1 => evalExpr_err o ρ w e x h1)
      (fun h2 => match h2 with
        | ⟨_, _, h3⟩ => Except.noConfusion h3)
  | .assign (.attrT b _) e, _, x, h =>
    (andThenE_err h).elim
      (fun h1 => evalExpr_err o ρ w e x h1)
      (fun h2 => match h2 with
        | ⟨vw, _, h3⟩ =>
          (andThenE_err h3).elim
            (fun h4 => evalExpr_err o ρ vw.2 b x h4)
            (fun h5 => match h5 with
              | ⟨_, _, h6⟩ =>
                (andThenE_err h6).elim
                  (fun h7 => liftO_oracErr h7)
                  (fun h8 => match h8 with
                    | ⟨_, _, h9⟩ => Except.noConfusion h9)))
  | .assign (.tupleT xs) e, _, x, h =>
    (andThenE_err h).elim
      (fun h1 => evalExpr_err o ρ w e x h1)
      (fun h2 => match h2 with
        | ⟨vw, _, h3⟩ => bindUnpack_err o xs.length vw.1 ρ vw.2 0 xs x h3)
  | .augAttr b _ _ e, _, x, h =>
    (andThenE_err h).elim
      (fun h1 => evalExpr_err o ρ w b x h1)
      (fun h2 => match h2 with
        | ⟨_, _, h3⟩ =>
          (andThenE_err h3).elim
            (fun h4 => liftO_oracErr h4)
            (fun h5 => match h5 with
              | ⟨cw, _, h6⟩ =>
                (andThenE_err h6).elim
                  (fun h7 => evalExpr_err o ρ cw.2 e x h7)
                  (fun h8 => match h8 with
                    | ⟨_, _, h9⟩ =>
                      (andThenE_err h9).elim
                        (fun h10 => liftO_oracErr h10)
                        (fun h11 => match h11 with
                          | ⟨_, _, h12⟩ =>
                            (andThenE_err h12).elim
                              (fun h13 => liftO_oracErr h13)
                              (fun h14 => match h14 with
                                | ⟨_, _, h15⟩ =>
                                  Except.noConfusion h15)))))
  | .exprStmt e, _, x, h =>
    (andThenE_err h).elim
      (fun h1 => evalExpr_err o ρ w e x h1)
      (fun h2 => match h2 with
        | ⟨_, _, h3⟩ => Except.noConfusion h3)
  | .importM _ _, _, _, h =>
    (andThenE_err h).elim
      (fun h1 => liftO_oracErr h1)
      (fun h2 => match h2 with
        | ⟨_, _, h3⟩ => Except.noConfusion h3)
  | .importF m xs, _, x, h => bindFrom_err o m ρ w xs x h
  | .magic _, _, _, h => Except.noConfusion h
  | .comment _, _, _, h => Except.noConfusion h
  | .forS _ _ _, hs, _, _ => Bool.noConfusion hs
  | .whileS _ _, hs, _, _ => Bool.noConfusion hs
  | .ifS _ _ _, hs, _, _ => Bool.noConfusion hs
  | .tryS _ _, hs, _, _ => Bool.noConfusion hs
  | .defS _ _ _, hs, _, _ => Bool.noConfusion hs

theorem execProg_err {W : Type} (o : Orac W) :
    ∀ p ρ w x, straightLine p = true →
      execProg o ρ w p = .error x → OracErr o x
  | [], _, _, _, _, h => Except.noConfusion h
  | s :: rest, ρ, w, x, hp, h => by
    rw [straightLine, List.all_cons, Bool.and_eq_true] at hp
    rcases andThenE_err h with h1 | ⟨ew, _, h2⟩
    · exact execStmt_err o ρ w s hp.1 x h1
    · exact execProg_err o rest ew.1 ew.2 x hp.2 h2

/-! ## The claims -/

/-- Claim C1, as stated, is false on the code: it is not the case that
every statement of the notebooks is free of authored numeric computation.
The `cta_sensitivity.ipynb` containment-correction cell computes the
solid-angle correction factor `(1 - np.cos(on_radii)) / (1 - np.cos(region.radius))`
and rescales the effective area and background with authored arithmetic. -/
theorem c1_counterexample :
    (ctaStmts.all (fun s => !stmtUsesArith s)) = false := by rfl

/-- Claim C1, amended: each listed non-trivial computation
(containment-radius lookup, Li & Ma significance, TS-map fitting, adaptive
smoothing) is delegated to a library call (`obs.psf.containment_radius`,
`sensitivity_estimator.run`, `estimator.run`, `smooth.run`), and the
notebooks define no callables of their own; but the notebook-authored code
does compute some numeric results of its own: exactly the statements of
`cta_sensitivity.ipynb` that attach units by `0.1 * u.deg` / `0.5 * u.deg`
and the containment-correction cell's effective-area scaling, solid-angle
factor, and background scaling.  Every other statement only sequences
library calls, reshapes arrays, and plots; `detect.ipynb` authors no
arithmetic at all. -/
theorem c1_delegation_amended :
    (ctaStmts.any (stmtAny (callsAttrNamed ("containment_radius")))) = true ∧
    (ctaStmts.any (stmtAny (callsRunOn ("sensitivity_estimator")))) = true ∧
    (detectStmts.any (stmtAny (callsRunOn ("smooth")))) = true ∧
    (detectStmts.any (stmtAny (callsRunOn ("estimator")))) = true ∧
    (ctaStmts.all (fun s => !isDefStmt s)) = true ∧
    (detectStmts.all (fun s => !isDefStmt s)) = true ∧
    ctaStmts.filter stmtUsesArith =
      [sRegion, sAeffCorr, sOnRadii, sFactor, sBkgCorr] ∧
    detectStmts.filter stmtUsesArith = [] := by
  exact ⟨rfl, rfl, rfl, rfl, rfl, rfl, rfl, rfl⟩

/-- Claim C2: neither notebook catches an exception (no try/except) or has
the control flow needed for retries, validation or recovery (both are
straight-line); and for every straight-line program, any error of a run is
an exception raised inside a library operation, forwarded to the caller
unchanged (the run's result is exactly that error, carrying the library's
message). -/
theorem c2_error_propagation :
    (ctaStmts.all (fun s => !isTryStmt s)) = true ∧
    (detectStmts.all (fun s => !isTryStmt s)) = true ∧
    straightLine ctaStmts = true ∧
    straightLine detectStmts = true ∧
    ∀ (W : Type) (o : Orac W) (p : List Stmt), straightLine p = true →
      ∀ ρ w x, execProg o ρ w p = .error x → OracErr o x := by
  exact ⟨rfl, rfl, rfl, rfl,
    fun _ o p hp ρ w x h => execProg_err o p ρ w x hp h⟩

/-- Witness for C2 at a concrete input: running `cta_sensitivity.ipynb`
against an oracle whose every operation raises `FileNotFoundError` yields
exactly that library error, and the theorem traces it back to the oracle. -/
theorem c2_witness : OracErr oracFail (Err.lib ("FileNotFoundError")) :=
  c2_error_propagation.2.2.2.2 Unit oracFail ctaStmts rfl envInit ()
    (Err.lib ("FileNotFoundError")) rfl

/-- Claim C3: after the containment-correction cell, the effective area
equals 0.68 times its prior value in every bin, and the background in each
reconstructed-energy bin equals its prior value times
`(1 - cos r_k) / (1 - cos (0.1 deg))`, where `r_k` is the 68% PSF
containment radius at the bin-center energy and offset 0.5 deg. -/
theorem c3_containment_correction (s : SensState)
    (h : s.regionRadius = deg 0.1) (k j : ℕ) :
    (containmentCell s).aeff j = 0.68 * s.aeff j ∧
    (containmentCell s).background k =
      s.background k *
        ((1 - Real.cos
            (s.psfContainmentRadius (s.eRecoCenter k) (deg 0.5) 0.68)) /
          (1 - Real.cos (deg 0.1))) := by
  refine ⟨mul_comm _ _, ?_⟩
  simp only [containmentCell]
  rw [h]

/-- Witness for C3 at a concrete pre-cell state (whose region radius is the
0.1 deg set by the region-definition cell). -/
theorem c3_witness :
    (containmentCell sensStateW).aeff 0 = 0.68 * sensStateW.aeff 0 ∧
    (containmentCell sensStateW).background 1 =
      sensStateW.background 1 *
        ((1 - Real.cos
            (sensStateW.psfContainmentRadius
              (sensStateW.eRecoCenter 1) (deg 0.5) 0.68)) /
          (1 - Real.cos (deg 0.1))) :=
  c3_containment_correction sensStateW rfl 1 0

/-- Claim C4: no statement of either notebook calls a file-writing
operation; file-reading calls are present, and every `$GAMMAPY_DATA` input
path they mention is a FITS file; the single authored write call occurs
only as a comment, so it never executes. -/
theorem c4_no_output_writes :
    (ctaStmts.any (stmtAny isWriteCallNode)) = false ∧
    (detectStmts.any (stmtAny isWriteCallNode)) = false ∧
    (ctaStmts.any (stmtAny isReadCallNode)) = true ∧
    (detectStmts.any (stmtAny isReadCallNode)) = true ∧
    ((dataPaths ctaStmts ++ dataPaths detectStmts).all isFitsPath) = true ∧
    hasCommentedWrite ctaStmts = true := by
  exact ⟨rfl, rfl, rfl, rfl, rfl, rfl⟩

/-- Claim C5: each notebook follows the chain read input files → construct
dataset objects → invoke estimators → inspect / plot, each stage a library
call (the notebooks define no callables of their own, so every call is into
third-party code); `cta_sensitivity.ipynb` constructs exactly one estimator
object and `detect.ipynb` exactly two - no notebook more than two. -/
theorem c5_four_stage_chain :
    chainHolds ctaStmts = true ∧
    chainHolds detectStmts = true ∧
    (ctaStmts.all (fun s => !isDefStmt s)) = true ∧
    (detectStmts.all (fun s => !isDefStmt s)) = true ∧
    estimatorStmtCount ctaStmts = 1 ∧
    estimatorStmtCount detectStmts = 2 ∧
    estimatorStmtCount ctaStmts ≤ 2 ∧
    estimatorStmtCount detectStmts ≤ 2 := by
  exact ⟨rfl, rfl, rfl, rfl, rfl, rfl, by decide, by decide⟩

/-- Claim C6: both notebooks are straight-line - no loops, conditionals,
try/except or function definitions (hence no recursion) - and a
straight-line program never reaches the interpreter's non-total
(unsupported-construct) case: since the interpreter is structurally
recursive, a run terminates whenever every library call does. -/
theorem c6_straight_line_total :
    straightLine ctaStmts = true ∧
    straightLine detectStmts = true ∧
    ∀ (W : Type) (o : Orac W) (p : List Stmt), straightLine p = true →
      ∀ ρ w, execProg o ρ w p ≠ .error .unsupported := by
  refine ⟨rfl, rfl, fun _ o p hp ρ w h => ?_⟩
  obtain ⟨_, _, m, _, hx⟩ := execProg_err o p ρ w _ hp h
  exact Err.noConfusion hx

/-- Witness for C6 at a concrete input: running `cta_sensitivity.ipynb`
against the everything-fails oracle never ends in the unsupported case. -/
theorem c6_witness :
    execProg oracFail envInit () ctaStmts ≠ .error .unsupported :=
  c6_straight_line_total.2.2 Unit oracFail ctaStmts rfl envInit ()

/-- Claim C7: under the hypothesis that every external library operation is
a deterministic function of its arguments, its library state and the input
files (two oracles that agree pointwise), two executions of the same
notebook from the same initial environment and library state produce
identical results - the notebook-authored code introduces no randomness or
other nondeterminism. -/
theorem c7_deterministic :
    ∀ (W : Type) (o1 o2 : Orac W), (∀ w op, o1 w op = o2 w op) →
      ∀ ρ w,
        execProg o1 ρ w ctaStmts = execProg o2 ρ w ctaStmts ∧
        execProg o1 ρ w detectStmts = execProg o2 ρ w detectStmts :=
  fun _ o1 o2 hO ρ w =>
    ⟨execProg_oc o1 o2 hO ρ w ctaStmts, execProg_oc o1 o2 hO ρ w detectStmts⟩

/-- Witness for C7 at a concrete input: two presentations of the same
trivial oracle give identical runs of both notebooks. -/
theorem c7_witness :
    execProg oracTrivA envInit () ctaStmts =
        execProg oracTrivB envInit () ctaStmts ∧
    execProg oracTrivA envInit () detectStmts =
        execProg oracTrivB envInit () detectStmts :=
  c7_deterministic Unit oracTrivA oracTrivB (fun _ _ => rfl) envInit ()

/-- Claim C8: the containment-correction cell mutates only the dataset's
effective area and background; the extraction region (center and 0.1 deg
radius), the reconstructed and true energy axes, the energy dispersion, and
the observation's PSF lookup and livetime are unchanged. -/
theorem c8_frame (s : SensState) :
    (containmentCell s).regionCenterRa = s.regionCenterRa ∧
    (containmentCell s).regionCenterDec = s.regionCenterDec ∧
    (containmentCell s).regionRadius = s.regionRadius ∧
    (containmentCell s).eRecoCenter = s.eRecoCenter ∧
    (containmentCell s).eTrueCenter = s.eTrueCenter ∧
    (containmentCell s).edisp = s.edisp ∧
    (containmentCell s).psfContainmentRadius = s.psfContainmentRadius ∧
    (containmentCell s).livetime = s.livetime :=
  ⟨rfl, rfl, rfl, rfl, rfl, rfl, rfl, rfl⟩

/-- Claim C9: the `mask_safe` map passed to the `MapDataset` constructor in
`detect.ipynb` has the same shape as the counts cube and is `True` at every
pixel, so no pixel of the counts data is excluded by the mask. -/
theorem c9_mask_safe (counts : Cube) :
    (maskSafe counts).nE = counts.nE ∧
    (maskSafe counts).nY = counts.nY ∧
    (maskSafe counts).nX = counts.nX ∧
    ∀ i j k, (maskSafe counts).data i j k :=
  ⟨rfl, rfl, rfl, fun _ _ _ => one_ne_zero⟩

/-- Claim C10: neither notebook imports a threading / multiprocessing /
asyncio / subprocess module, no call creates a thread, process, pool or
asynchronous task, and both notebooks are straight-line synchronous
scripts. -/
theorem c10_no_concurrency :
    ((progImports ctaStmts ++ progImports detectStmts).all
        (fun m => !isConcurModule m)) = true ∧
    (ctaStmts.any (stmtAny spawnsConcurNode)) = false ∧
    (detectStmts.any (stmtAny spawnsConcurNode)) = false ∧
    straightLine ctaStmts = true ∧
    straightLine detectStmts = true := by
  exact ⟨rfl, rfl, rfl, rfl, rfl⟩

end NbModel
